import Mathlib

/-!
Shallow embedding of the codegreen hardware energy measurement engine.

Numeric values that the Rust source stores as `f64` are modelled as
rationals (`ℚ`); every arithmetic operation the embedded code performs
(addition, subtraction, multiplication, division, `max` with zero,
exact powers of two from `1u64 << e` with `e ≤ 31`) is exact on the
`f64` values the source manipulates, so `ℚ` is a faithful carrier.
Points in time (`Instant`, `DateTime<Utc>`) are modelled as rationals
as well; `HashMap<String, V>` is modelled as an association list with
the usual replace-or-insert and first-match-lookup operations.
-/

namespace Codegreen

/-- Errors of the hardware-plugins crate (src/packages/hardware-plugins/src/lib.rs). -/
inductive HardwareError where
  | DeviceNotFound (msg : String)
  | PermissionDenied (msg : String)
  | SensorError (msg : String)
  | UnsupportedOperation (msg : String)
  | Other (msg : String)
deriving DecidableEq

/-- Measurement of the hardware-plugins crate (src/packages/hardware-plugins/src/lib.rs):
a timestamp and a joule reading. -/
structure Measurement where
  timestamp : ℚ
  joules : ℚ
deriving DecidableEq

/-- Errors of the core crate (src/core/src/lib.rs, `EnergyError`). -/
inductive EnergyError where
  | HardwareError (e : HardwareError)
  | LanguageError (msg : String)
  | MeasurementError (msg : String)
deriving DecidableEq

/-- Errors of the instrumentation crate (src/packages/instrumentation/src/error.rs);
only the variants exercised by the embedded code are carried with structure. -/
inductive InstrumentationError where
  | HardwareError (e : HardwareError)
  | LanguageError (msg : String)
  | MeasurementError (msg : String)
deriving DecidableEq

/-- HashMap lookup (`HashMap::get`) on the association-list model: first entry
with the given key. -/
def lookupKey {α : Type} (k : String) : List (String × α) → Option α
  | [] => none
  | (k', v) :: rest => if k' = k then some v else lookupKey k rest

/-- HashMap insert (`HashMap::insert`) on the association-list model:
replace the entry with the given key, or append a fresh one. -/
def insertKey {α : Type} (k : String) (v : α) : List (String × α) → List (String × α)
  | [] => [(k, v)]
  | (k', v') :: rest => if k' = k then (k, v) :: rest else (k', v') :: insertKey k v rest

/-- BaseAdapter::calculate_energy_delta (src/core/src/adapters/mod.rs, lines 26-28):
plain difference of the two joule readings, with no overflow correction. -/
def BaseAdapter.calculate_energy_delta (s e : Measurement) : ℚ :=
  e.joules - s.joules

/-- The `EnergyMeasurement` record consumed by `MultiSourceSession`
(src/core/src/measurement/mod.rs). Its definition is not under src/ (the type is
only imported and used there); the fields are the ones the source reads —
`source`, `joules`, `timestamp` — matching the spec's measurement interchange
type `\x7b timestamp, source, joules, ... \x7d`. -/
structure EnergyMeasurement where
  source : String
  joules : ℚ
  timestamp : ℚ
deriving DecidableEq

/-- MultiSourceSession (src/core/src/measurement/mod.rs, lines 5-15). -/
structure MultiSourceSession where
  start_measurements : List (String × EnergyMeasurement)
  end_measurements : List (String × EnergyMeasurement)
  start_time : ℚ
  end_time : Option ℚ
deriving DecidableEq

/-- MultiSourceSession::add_start_measurement (measurement/mod.rs, lines 29-31). -/
def MultiSourceSession.add_start_measurement (s : MultiSourceSession)
    (m : EnergyMeasurement) : MultiSourceSession :=
  { s with start_measurements := insertKey m.source m s.start_measurements }

/-- MultiSourceSession::add_end_measurement (measurement/mod.rs, lines 34-36). -/
def MultiSourceSession.add_end_measurement (s : MultiSourceSession)
    (m : EnergyMeasurement) : MultiSourceSession :=
  { s with end_measurements := insertKey m.source m s.end_measurements }

/-- MultiSourceSession::end (measurement/mod.rs, lines 39-41): unconditionally
records the current time as the end time. `end` is a Lean keyword, hence the
name `endSession`; `now` stands for `Instant::now()`. -/
def MultiSourceSession.endSession (s : MultiSourceSession) (now : ℚ) : MultiSourceSession :=
  { s with end_time := some now }

/-- MultiSourceSession::duration (measurement/mod.rs, lines 44-46).
`Instant::duration_since` saturates at zero, hence the `max`. -/
def MultiSourceSession.duration (s : MultiSourceSession) : Option ℚ :=
  s.end_time.map (fun e => max (e - s.start_time) 0)

/-- MultiSourceSession::total_energy (measurement/mod.rs, lines 49-58):
iterate the start map, keep the sources that also have an end entry,
sum the per-source joule differences. -/
def MultiSourceSession.total_energy (s : MultiSourceSession) : ℚ :=
  (s.start_measurements.filterMap (fun p =>
    (lookupKey p.1 s.end_measurements).map (fun e => e.joules - p.2.joules))).sum

/-- MultiSourceSession::average_power (measurement/mod.rs, lines 61-69). -/
def MultiSourceSession.average_power (s : MultiSourceSession) : Option ℚ :=
  s.duration.map (fun d => if 0 < d then s.total_energy / d else 0)

/-- Key set of an association-list map (spec-side notion). -/
def keysOf {α : Type} (m : List (String × α)) : Finset String :=
  (m.map Prod.fst).toFinset

/-- Joule reading a map holds for a key, zero when absent (spec-side notion). -/
def jouleAt (m : List (String × EnergyMeasurement)) (k : String) : ℚ :=
  match lookupKey k m with
  | some e => e.joules
  | none => 0

/-- Spec-side restatement of the total: the sum, over exactly the source keys
present in both the start map and the end map, of the end joules minus the
start joules. -/
def total_energy_specification (s : MultiSourceSession) : ℚ :=
  ∑ k ∈ keysOf s.start_measurements ∩ keysOf s.end_measurements,
    (jouleAt s.end_measurements k - jouleAt s.start_measurements k)

lemma mem_keysOf_iff {α : Type} (k : String) (m : List (String × α)) :
    k ∈ keysOf m ↔ (lookupKey k m).isSome = true := by
  induction m with
  | nil => simp [keysOf, lookupKey]
  | cons p rest ih =>
    obtain ⟨k', v⟩ := p
    by_cases h : k' = k
    · subst h
      simp [keysOf, lookupKey]
    · have h' : ¬ k = k' := fun hk => h hk.symm
      simp only [keysOf, List.map_cons, List.toFinset_cons, Finset.mem_insert, h', false_or,
        lookupKey, if_neg h]
      exact ih

lemma jouleAt_cons_of_ne {k₀ x : String} {v₀ : EnergyMeasurement}
    {rest : List (String × EnergyMeasurement)} (h : k₀ ≠ x) :
    jouleAt ((k₀, v₀) :: rest) x = jouleAt rest x := by
  simp [jouleAt, lookupKey, h]

lemma sum_deltas_eq (en : List (String × EnergyMeasurement)) :
    ∀ st : List (String × EnergyMeasurement), (st.map Prod.fst).Nodup →
      (st.filterMap (fun p =>
        (lookupKey p.1 en).map (fun e => e.joules - p.2.joules))).sum
      = ∑ k ∈ keysOf st ∩ keysOf en, (jouleAt en k - jouleAt st k) := by
  intro st
  induction st with
  | nil => intro _; simp [keysOf]
  | cons p rest ih =>
    intro hnd
    obtain ⟨k₀, v₀⟩ := p
    rw [List.map_cons, List.nodup_cons] at hnd
    obtain ⟨hk₀, hrest⟩ := hnd
    have hk₀rest : k₀ ∉ keysOf rest := by
      simpa [keysOf, List.mem_toFinset] using hk₀
    have hins : keysOf ((k₀, v₀) :: rest) = insert k₀ (keysOf rest) := by
      simp [keysOf]
    cases hlk : lookupKey k₀ en with
    | none =>
      have hk₀en : k₀ ∉ keysOf en := by
        rw [mem_keysOf_iff, hlk]
        simp
      rw [hins, Finset.insert_inter_of_not_mem hk₀en]
      simp only [List.filterMap_cons, hlk, Option.map_none']
      rw [ih hrest]
      refine Finset.sum_congr rfl ?_
      intro x hx
      have hxne : k₀ ≠ x := by
        rintro rfl
        exact hk₀en (Finset.mem_inter.mp hx).2
      rw [jouleAt_cons_of_ne hxne]
    | some e =>
      have hk₀en : k₀ ∈ keysOf en := by
        rw [mem_keysOf_iff, hlk]
        simp
      have hnotmem : k₀ ∉ keysOf rest ∩ keysOf en := by
        rw [Finset.mem_inter]
        exact fun hc => hk₀rest hc.1
      rw [hins, Finset.insert_inter_of_mem hk₀en, Finset.sum_insert hnotmem]
      simp only [List.filterMap_cons, hlk, Option.map_some']
      have hstart : jouleAt ((k₀, v₀) :: rest) k₀ = v₀.joules := by
        simp [jouleAt, lookupKey]
      have hend : jouleAt en k₀ = e.joules := by
        simp [jouleAt, hlk]
      rw [List.sum_cons, hstart, hend, ih hrest]
      congr 1
      refine Finset.sum_congr rfl ?_
      intro x hx
      have hxne : k₀ ≠ x := by
        rintro rfl
        exact hk₀rest (Finset.mem_inter.mp hx).1
      rw [jouleAt_cons_of_ne hxne]

/-- MeasurementSession of the core crate (src/core/src/lib.rs, lines 14-22).
The Rust field `end` is a Lean keyword and is called `endT` here. -/
structure MeasurementSession where
  start_measurements : List (String × Measurement)
  end_measurements : List (String × Measurement)
  start : ℚ
  endT : ℚ
  duration : ℚ
  total_energy : ℚ
deriving DecidableEq

/-- MeasurementSession::new (core/src/lib.rs, lines 26-35); `now` stands for
`Utc::now()`. -/
def MeasurementSession.new (now : ℚ) : MeasurementSession :=
  { start_measurements := []
    end_measurements := []
    start := now
    endT := now
    duration := 0
    total_energy := 0 }

/-- MeasurementSession::add_start_measurement (core/src/lib.rs, lines 38-40). -/
def MeasurementSession.add_start_measurement (s : MeasurementSession)
    (source : String) (m : Measurement) : MeasurementSession :=
  { s with start_measurements := insertKey source m s.start_measurements }

/-- MeasurementSession::calculate_total_energy (core/src/lib.rs, lines 52-59):
reset the total and add the delta of every source present in both maps,
iterating the end map and looking the source up in the start map. -/
def MeasurementSession.calculate_total_energy (s : MeasurementSession) : MeasurementSession :=
  { s with total_energy := (s.end_measurements.filterMap (fun p =>
      (lookupKey p.1 s.start_measurements).map (fun st => p.2.joules - st.joules))).sum }

/-- MeasurementSession::add_end_measurement (core/src/lib.rs, lines 43-49):
insert the end entry, move the session end to the measurement's timestamp,
recompute the duration (`to_std().unwrap_or_default()` clamps a negative
difference to zero) and the total energy. -/
def MeasurementSession.add_end_measurement (s : MeasurementSession)
    (source : String) (m : Measurement) : MeasurementSession :=
  MeasurementSession.calculate_total_energy
    { s with end_measurements := insertKey source m s.end_measurements
             endT := m.timestamp
             duration := max (m.timestamp - s.start) 0 }

/-- The loop body of EnergyMonitor::start_measurement (core/src/lib.rs,
lines 154-162): each plugin is represented by its name and the result of its
`get_measurement()` call; the `?` operator aborts at the first failing read. -/
def EnergyMonitor.startLoop (s : MeasurementSession) :
    List (String × Except HardwareError Measurement) → Except EnergyError MeasurementSession
  | [] => Except.ok s
  | (_, Except.error e) :: _ => Except.error (EnergyError.HardwareError e)
  | (name, Except.ok m) :: rest => EnergyMonitor.startLoop (s.add_start_measurement name m) rest

/-- EnergyMonitor::start_measurement (core/src/lib.rs, lines 154-162). -/
def EnergyMonitor.start_measurement (now : ℚ)
    (plugins : List (String × Except HardwareError Measurement)) :
    Except EnergyError MeasurementSession :=
  EnergyMonitor.startLoop (MeasurementSession.new now) plugins

/-- The loop of EnergyMonitor::stop_measurement (core/src/lib.rs, lines 164-171):
the `?` operator aborts at the first failing read. -/
def EnergyMonitor.stop_measurement (s : MeasurementSession) :
    List (String × Except HardwareError Measurement) → Except EnergyError MeasurementSession
  | [] => Except.ok s
  | (_, Except.error e) :: _ => Except.error (EnergyError.HardwareError e)
  | (name, Except.ok m) :: rest => EnergyMonitor.stop_measurement (s.add_end_measurement name m) rest

deriving instance DecidableEq for Except

/-- The behaviour of one plugin registered with the instrumentation crate's
EnergyMonitor (src/packages/instrumentation/src/hardware/mod.rs): the results
its `start_measurement()` and `stop_measurement()` calls produce. -/
structure PluginBehavior where
  startResult : Except InstrumentationError Measurement
  stopResult : Except InstrumentationError Measurement
deriving DecidableEq

/-- Instrumentation EnergyMonitor (instrumentation/src/hardware/mod.rs,
lines 43-46). -/
structure InstrMonitor where
  plugins : List PluginBehavior
  start_measurements : List Measurement
deriving DecidableEq

/-- The loop of the instrumentation EnergyMonitor::start_measurement
(instrumentation/src/hardware/mod.rs, lines 62-66): push the measurement of
every plugin whose start read succeeds, silently skipping failures. -/
def collectStarts : List PluginBehavior → List Measurement
  | [] => []
  | p :: rest =>
    match p.startResult with
    | Except.ok m => m :: collectStarts rest
    | Except.error _ => collectStarts rest

/-- Instrumentation EnergyMonitor::start_measurement (instrumentation/src/hardware/mod.rs,
lines 60-68): clear the stored start measurements, refill them from the
plugins, and return Ok. -/
def instrStart (m : InstrMonitor) : InstrMonitor × Except InstrumentationError Unit :=
  ({ m with start_measurements := collectStarts m.plugins }, Except.ok ())

/-- The loop of the instrumentation EnergyMonitor::stop_measurement
(instrumentation/src/hardware/mod.rs, lines 72-80), with `i` the enumeration
index. The unchecked indexing `self.start_measurements[i]` panics when out of
bounds; the panic is modelled by `none`. -/
def instrStopGo (starts : List Measurement) : Nat → List PluginBehavior → Option (List Measurement)
  | _, [] => some []
  | i, p :: rest =>
    match p.stopResult with
    | Except.error _ => instrStopGo starts (i + 1) rest
    | Except.ok e =>
      match starts[i]? with
      | none => none
      | some s => (instrStopGo starts (i + 1) rest).map
          (fun l => { timestamp := e.timestamp, joules := e.joules - s.joules } :: l)

/-- Instrumentation EnergyMonitor::stop_measurement (instrumentation/src/hardware/mod.rs,
lines 70-82). -/
def instrStop (m : InstrMonitor) : Option (List Measurement) :=
  instrStopGo m.start_measurements 0 m.plugins

/-- MSR register number of the power-unit register
(src/packages/hardware-plugins/src/plugins/intel_rapl.rs, line 6). -/
def MSR_POWER_UNIT : Nat := 0x606

/-- MSR register number of the package energy-status register (intel_rapl.rs, line 7). -/
def MSR_PKG_ENERGY_STATUS : Nat := 0x611

/-- MSR register number of the DRAM energy-status register (intel_rapl.rs, line 8). -/
def MSR_DRAM_ENERGY_STATUS : Nat := 0x619

/-- State of the MSR device file at the plugin's fixed `msr_path`:
whether the path exists, whether opening fails (and with what message),
whether `read_exact` fails (and with what message), and the file's first
eight bytes. -/
structure MsrDevice where
  pathExists : Bool
  openError : Option String
  readError : Option String
  bytes : Fin 8 → Fin 256
deriving DecidableEq

/-- u64::from_le_bytes on the eight-byte buffer (intel_rapl.rs, line 46). -/
def u64FromLeBytes (b : Fin 8 → Fin 256) : Nat :=
  (b 0).val + 2 ^ 8 * ((b 1).val + 2 ^ 8 * ((b 2).val + 2 ^ 8 * ((b 3).val
    + 2 ^ 8 * ((b 4).val + 2 ^ 8 * ((b 5).val + 2 ^ 8 * ((b 6).val + 2 ^ 8 * (b 7).val))))))

/-- IntelRAPLPlugin::read_msr (intel_rapl.rs, lines 31-47). The `msr` register
number is a parameter of the Rust function but is never used in its body: the
read is a flat `read_exact` of the first eight bytes of the file at the fixed
path, with no per-register seek. -/
def read_msr (dev : MsrDevice) (msr : Nat) : Except HardwareError Nat :=
  if !dev.pathExists then
    Except.error (HardwareError.DeviceNotFound
      ("MSR device not found. Make sure msr module is loaded."))
  else
    match dev.openError with
    | some e => Except.error (HardwareError.PermissionDenied ("Failed to open MSR: " ++ e))
    | none =>
      match dev.readError with
      | some e => Except.error (HardwareError.SensorError ("Failed to read MSR: " ++ e))
      | none => Except.ok (u64FromLeBytes dev.bytes)

/-- The Measurement shape produced by IntelRAPLPlugin::get_measurement
(intel_rapl.rs, lines 99-114): a timestamp, a `power_watts` field, an absent
temperature, and the additional-metrics map. -/
structure RaplMeasurement where
  timestamp : ℚ
  power_watts : ℚ
  temperature_celsius : Option ℚ
  additional_metrics : List (String × ℚ)
deriving DecidableEq

/-- IntelRAPLPlugin's fields (intel_rapl.rs, lines 10-17). -/
structure RaplState where
  msr_path : String
  power_units : ℚ
  energy_units : ℚ
  time_units : ℚ
  last_measurement : Option RaplMeasurement
  measurement_start : Option ℚ
deriving DecidableEq

/-- IntelRAPLPlugin::new (intel_rapl.rs, lines 20-29). -/
def RaplState.new : RaplState :=
  { msr_path := "/dev/cpu/0/msr"
    power_units := 0
    energy_units := 0
    time_units := 0
    last_measurement := none
    measurement_start := none }

/-- IntelRAPLPlugin::read_power_unit (intel_rapl.rs, lines 49-58): decode the
three unit-scale fields out of the power-unit register and store them.
`1.0 / (1u64 << e) as f64` is exact for every exponent the masks allow
(`e ≤ 31`), so the rational `1 / (1 <<< e : ℕ)` is a faithful model. -/
def read_power_unit (st : RaplState) (dev : MsrDevice) : Except HardwareError RaplState :=
  match read_msr dev MSR_POWER_UNIT with
  | Except.error e => Except.error e
  | Except.ok power_unit =>
    Except.ok { st with
      power_units := 1 / ((1 <<< ((power_unit >>> 0) &&& 0xF) : ℕ) : ℚ)
      energy_units := 1 / ((1 <<< ((power_unit >>> 8) &&& 0x1F) : ℕ) : ℚ)
      time_units := 1 / ((1 <<< ((power_unit >>> 16) &&& 0xF) : ℕ) : ℚ) }

/-- IntelRAPLPlugin::initialize (intel_rapl.rs, lines 62-65): the one-time
decode of the unit scales, cached in the plugin state. -/
def initializePlugin (st : RaplState) (dev : MsrDevice) : Except HardwareError RaplState :=
  read_power_unit st dev

/-- IntelRAPLPlugin::start_measurement (intel_rapl.rs, lines 79-87); `now`
stands for `Instant::now()`. -/
def start_measurement (st : RaplState) (now : ℚ) : Except HardwareError RaplState :=
  match st.measurement_start with
  | some _ => Except.error (HardwareError.UnsupportedOperation
      ("Measurement already in progress"))
  | none => Except.ok { st with measurement_start := some now }

/-- IntelRAPLPlugin::stop_measurement (intel_rapl.rs, lines 89-97). -/
def stop_measurement (st : RaplState) : Except HardwareError RaplState :=
  match st.measurement_start with
  | none => Except.error (HardwareError.UnsupportedOperation
      ("No measurement in progress"))
  | some _ => Except.ok { st with measurement_start := none }

/-- IntelRAPLPlugin::get_measurement (intel_rapl.rs, lines 99-114): read the
package and DRAM energy-status registers, scale the DRAM counter by the cached
energy unit into the extra metric, and scale the package counter by the cached
POWER unit into the `power_watts` field. -/
def get_measurement (st : RaplState) (dev : MsrDevice) (now : ℚ) :
    Except HardwareError RaplMeasurement :=
  match read_msr dev MSR_PKG_ENERGY_STATUS with
  | Except.error e => Except.error e
  | Except.ok pkg_energy =>
    match read_msr dev MSR_DRAM_ENERGY_STATUS with
    | Except.error e => Except.error e
    | Except.ok dram_energy =>
      Except.ok { timestamp := now
                  power_watts := (pkg_energy : ℚ) * st.power_units
                  temperature_celsius := none
                  additional_metrics :=
                    [("dram_energy_joules", (dram_energy : ℚ) * st.energy_units)] }

/-- The default HardwarePlugin::start_measurement implementation
(src/packages/hardware-plugins/src/common.rs, lines 125-130): no state guard,
always succeeds with a zero-joule measurement; `now` stands for `Utc::now()`. -/
def defaultStartMeasurement (now : ℚ) : Except HardwareError Measurement :=
  Except.ok { timestamp := now, joules := 0 }

/-- The default HardwarePlugin::stop_measurement implementation
(common.rs, lines 132-137): no state guard, always succeeds. -/
def defaultStopMeasurement (now : ℚ) : Except HardwareError Measurement :=
  Except.ok { timestamp := now, joules := 0 }

/-- C1: the claim says `calculate_energy_delta` applies 32-bit overflow
correction, so that raw readings 4294967290 then 5 (energy unit 1, so the
joule fields carry the raw values) yield a delta of 11 joules and the delta of
a wrapping counter is never negative. The code computes the plain difference
`end.joules - start.joules`, so the same readings yield −4294967285 — negative —
both in `calculate_energy_delta` and summed in `total_energy`; the corrected
value the spec requires would be 11. -/
theorem calculate_energy_delta_wrapped_counter :
    BaseAdapter.calculate_energy_delta { timestamp := 0, joules := 4294967290 }
      { timestamp := 1, joules := 5 } = -4294967285
    ∧ BaseAdapter.calculate_energy_delta { timestamp := 0, joules := 4294967290 }
      { timestamp := 1, joules := 5 } < 0
    ∧ MultiSourceSession.total_energy
      { start_measurements := [("base", { source := "base", joules := 4294967290, timestamp := 0 })]
        end_measurements := [("base", { source := "base", joules := 5, timestamp := 1 })]
        start_time := 0
        end_time := some 1 } = -4294967285
    ∧ ((5 : ℚ) + 2 ^ 32) - 4294967290 = 11 := by
  refine ⟨?_, ?_, ?_, ?_⟩ <;>
    norm_num [BaseAdapter.calculate_energy_delta, MultiSourceSession.total_energy, lookupKey,
      List.filterMap_cons, List.filterMap_nil]

/-- C5 counterexample: the claim quantifies over every hardware plugin, but the
default HardwarePlugin start/stop implementations of common.rs keep no
in-progress state at all: a second `start_measurement` without an intervening
stop still succeeds, and `stop_measurement` without any prior start succeeds
with a zero measurement instead of an `UnsupportedOperation` error. -/
theorem default_plugin_has_no_state_guard :
    defaultStartMeasurement 0 = Except.ok { timestamp := 0, joules := 0 }
    ∧ defaultStartMeasurement 1 = Except.ok { timestamp := 1, joules := 0 }
    ∧ defaultStopMeasurement 2 = Except.ok { timestamp := 2, joules := 0 }
    ∧ (defaultStopMeasurement 2).isOk = true :=
  ⟨rfl, rfl, rfl, rfl⟩

/-- C5 (amended): for the IntelRAPLPlugin, `start_measurement` while a
measurement is in progress fails with `UnsupportedOperation`, `stop_measurement`
with no measurement in progress fails with `UnsupportedOperation`, a start from
the idle state succeeds and records the in-progress state, and a stop from the
in-progress state succeeds and clears it; plugins relying on the default trait
implementations of common.rs have no such guard — their start and stop always
succeed. -/
theorem rapl_start_stop_state_machine (st : RaplState) (t t₀ now : ℚ) :
    start_measurement { st with measurement_start := some t₀ } t
      = Except.error (HardwareError.UnsupportedOperation ("Measurement already in progress"))
    ∧ start_measurement { st with measurement_start := none } t
      = Except.ok { st with measurement_start := some t }
    ∧ stop_measurement { st with measurement_start := none }
      = Except.error (HardwareError.UnsupportedOperation ("No measurement in progress"))
    ∧ stop_measurement { st with measurement_start := some t₀ }
      = Except.ok { st with measurement_start := none }
    ∧ defaultStartMeasurement now = Except.ok { timestamp := now, joules := 0 }
    ∧ defaultStopMeasurement now = Except.ok { timestamp := now, joules := 0 } :=
  ⟨rfl, rfl, rfl, rfl, rfl, rfl⟩

/-- C6 counterexample: `end()` is not idempotent. On a session ended at time 1,
a second `end()` at time 2 replaces the recorded end time and changes the
duration, so the second call is not a no-op. -/
theorem end_called_twice_changes_end_time :
    (MultiSourceSession.endSession (MultiSourceSession.endSession
      { start_measurements := [], end_measurements := [], start_time := 0, end_time := none }
      1) 2).end_time = some 2
    ∧ (MultiSourceSession.endSession
      { start_measurements := [], end_measurements := [], start_time := 0, end_time := none }
      1).end_time = some 1
    ∧ MultiSourceSession.duration (MultiSourceSession.endSession (MultiSourceSession.endSession
      { start_measurements := [], end_measurements := [], start_time := 0, end_time := none }
      1) 2)
      ≠ MultiSourceSession.duration (MultiSourceSession.endSession
      { start_measurements := [], end_measurements := [], start_time := 0, end_time := none }
      1) := by
  refine ⟨rfl, rfl, ?_⟩
  simp only [MultiSourceSession.duration, MultiSourceSession.endSession, Option.map_some']
  intro h
  have := Option.some.inj h
  norm_num at this

/-- C6 (amended): a second call to `end()` is not a no-op — it overwrites the
recorded end time with the time of the second call, exactly as if the first
call had not happened, so `duration()` and `average_power()` reflect the
second call's time. -/
theorem end_second_call_overwrites (s : MultiSourceSession) (t₁ t₂ : ℚ) :
    (s.endSession t₁).endSession t₂ = s.endSession t₂ :=
  rfl

/-- C9: `read_msr` ignores its register-number argument — any two register
numbers read and decode the same eight bytes from the start of the fixed
device path, so the power-unit, package-energy and DRAM-energy reads all
return the same value on any fixed device state. -/
theorem read_msr_ignores_register_number (dev : MsrDevice) (a b : Nat) :
    read_msr dev a = read_msr dev b
    ∧ read_msr dev MSR_POWER_UNIT = read_msr dev MSR_PKG_ENERGY_STATUS
    ∧ read_msr dev MSR_PKG_ENERGY_STATUS = read_msr dev MSR_DRAM_ENERGY_STATUS :=
  ⟨rfl, rfl, rfl⟩

/-- C2: with the HashMap key invariant (no duplicate keys in the start map),
`total_energy()` equals the sum, over exactly those source keys present in
both the start and the end map, of the end joules minus the start joules;
keys present in only one of the two maps do not appear in that sum, so they
contribute zero. -/
theorem total_energy_eq_specification (s : MultiSourceSession)
    (h : (s.start_measurements.map Prod.fst).Nodup) :
    s.total_energy = total_energy_specification s := by
  unfold MultiSourceSession.total_energy total_energy_specification
  exact sum_deltas_eq s.end_measurements s.start_measurements h

/-- C2 witness: the theorem applied to a concrete session holding sources
`cpu` and `gpu` at start but only `cpu` at the end. -/
theorem total_energy_eq_specification_witness :
    (([("cpu", ({ source := "cpu", joules := 10, timestamp := 0 } : EnergyMeasurement)),
       ("gpu", ({ source := "gpu", joules := 5, timestamp := 0 } : EnergyMeasurement))].map
         Prod.fst).Nodup)
    ∧ MultiSourceSession.total_energy
      { start_measurements := [("cpu", { source := "cpu", joules := 10, timestamp := 0 }),
                               ("gpu", { source := "gpu", joules := 5, timestamp := 0 })]
        end_measurements := [("cpu", { source := "cpu", joules := 25, timestamp := 9 })]
        start_time := 0
        end_time := some 9 }
      = total_energy_specification
      { start_measurements := [("cpu", { source := "cpu", joules := 10, timestamp := 0 }),
                               ("gpu", { source := "gpu", joules := 5, timestamp := 0 })]
        end_measurements := [("cpu", { source := "cpu", joules := 25, timestamp := 9 })]
        start_time := 0
        end_time := some 9 } :=
  ⟨by decide, total_energy_eq_specification _ (by decide)⟩

/-- C8: on every ended session, `average_power()` returns `some 0` when the
duration is zero (not an error, and no NaN or infinity is representable in the
rational model), and `some (total_energy / duration)` when the duration is
positive. -/
theorem average_power_cases (s : MultiSourceSession) (d : ℚ)
    (hd : s.duration = some d) :
    (d = 0 → s.average_power = some 0)
    ∧ (0 < d → s.average_power = some (s.total_energy / d)) := by
  constructor
  · rintro rfl
    simp [MultiSourceSession.average_power, hd]
  · intro hpos
    simp [MultiSourceSession.average_power, hd, if_pos hpos]

/-- C8 witness: the theorem applied to an ended zero-duration session and to
an ended session of duration 4. -/
theorem average_power_cases_witness :
    MultiSourceSession.average_power
      { start_measurements := [], end_measurements := [], start_time := 5, end_time := some 5 }
      = some 0
    ∧ MultiSourceSession.average_power
      { start_measurements := [("a", { source := "a", joules := 10, timestamp := 0 })]
        end_measurements := [("a", { source := "a", joules := 22, timestamp := 4 })]
        start_time := 0
        end_time := some 4 }
      = some (MultiSourceSession.total_energy
      { start_measurements := [("a", { source := "a", joules := 10, timestamp := 0 })]
        end_measurements := [("a", { source := "a", joules := 22, timestamp := 4 })]
        start_time := 0
        end_time := some 4 } / 4) :=
  ⟨(average_power_cases _ 0 (by norm_num [MultiSourceSession.duration])).1 rfl,
   (average_power_cases _ 4 (by norm_num [MultiSourceSession.duration])).2 (by norm_num)⟩

/-- The MSR device state used in the RAPL examples: the path exists, opening
and reading succeed, and the register file's first eight bytes encode the
value 8. -/
def devEight : MsrDevice :=
  { pathExists := true
    openError := none
    readError := none
    bytes := fun i => if i = 0 then (8 : Fin 256) else 0 }

/-- A RAPL plugin state whose cached power-unit scale (1/2) differs from its
cached energy-unit scale (1/4). -/
def stHalfQuarter : RaplState :=
  { RaplState.new with power_units := 1 / 2, energy_units := 1 / 4, time_units := 1 }

/-- C3 counterexample: with a raw counter value of 8, a power-unit scale of 1/2
and an energy-unit scale of 1/4, `get_measurement` stores 8 × 1/4 = 2 for the
DRAM extra metric but 8 × 1/2 = 4 — not 8 × 1/4 = 2 — in the package field:
the package counter is scaled by the power-unit scale, not the energy-unit
scale the claim states. -/
theorem get_measurement_package_scaled_by_power_units :
    read_msr devEight MSR_PKG_ENERGY_STATUS = Except.ok 8
    ∧ get_measurement stHalfQuarter devEight 0
      = Except.ok { timestamp := 0
                    power_watts := 4
                    temperature_celsius := none
                    additional_metrics := [("dram_energy_joules", 2)] }
    ∧ (4 : ℚ) ≠ 8 * stHalfQuarter.energy_units := by
  refine ⟨rfl, ?_, ?_⟩
  · simp +decide [get_measurement, read_msr, devEight, u64FromLeBytes, stHalfQuarter,
      RaplState.new]
    norm_num [show ((8 : Fin 256) : ℕ) = 8 from rfl]
  · norm_num [stHalfQuarter, RaplState.new]

/-- C3 (amended): whenever the register read succeeds with raw value `raw`,
`get_measurement` produces the DRAM extra metric `raw * energy_units` as the
claim states, but the package field is `raw * power_units` — the power-unit
scale, not the energy-unit scale — stored under `power_watts`. -/
theorem get_measurement_unit_scaling (st : RaplState) (dev : MsrDevice) (now : ℚ)
    (raw : Nat) (h : read_msr dev MSR_PKG_ENERGY_STATUS = Except.ok raw) :
    get_measurement st dev now
      = Except.ok { timestamp := now
                    power_watts := (raw : ℚ) * st.power_units
                    temperature_celsius := none
                    additional_metrics := [("dram_energy_joules", (raw : ℚ) * st.energy_units)] } := by
  have h' : read_msr dev MSR_DRAM_ENERGY_STATUS = Except.ok raw := h
  unfold get_measurement
  rw [h, h']

/-- C3 witness for the amended theorem, at the concrete device encoding 8. -/
theorem get_measurement_unit_scaling_witness :
    get_measurement stHalfQuarter devEight 7
      = Except.ok { timestamp := 7
                    power_watts := (8 : ℚ) * stHalfQuarter.power_units
                    temperature_celsius := none
                    additional_metrics :=
                      [("dram_energy_joules", (8 : ℚ) * stHalfQuarter.energy_units)] } :=
  get_measurement_unit_scaling stHalfQuarter devEight 7 8 rfl

/-- C7: for every 64-bit value of the power-unit register, `initialize()`
decodes and caches the power-unit scale as 1 / 2^(bits [0:3]), the energy-unit
scale as 1 / 2^(bits [8:12]) and the time-unit scale as 1 / 2^(bits [16:19]) —
exact powers of two — storing all three in the plugin state in the single
`read_power_unit` call; `get_measurement` only reads these cached fields. -/
theorem initializePlugin_decodes_unit_scales (st : RaplState) (dev : MsrDevice)
    (v : Nat) (hv : v < 2 ^ 64) (h : read_msr dev MSR_POWER_UNIT = Except.ok v) :
    initializePlugin st dev
      = Except.ok { st with
          power_units := 1 / (2 : ℚ) ^ (v % 2 ^ 4)
          energy_units := 1 / (2 : ℚ) ^ (v / 2 ^ 8 % 2 ^ 5)
          time_units := 1 / (2 : ℚ) ^ (v / 2 ^ 16 % 2 ^ 4) } := by
  unfold initializePlugin read_power_unit
  rw [h]
  have e1 : v &&& 0xF = v % 2 ^ 4 := Nat.and_pow_two_sub_one_eq_mod v 4
  have e2 : (v >>> 8) &&& 0x1F = v / 2 ^ 8 % 2 ^ 5 := by
    rw [Nat.shiftRight_eq_div_pow]
    exact Nat.and_pow_two_sub_one_eq_mod (v / 2 ^ 8) 5
  have e3 : (v >>> 16) &&& 0xF = v / 2 ^ 16 % 2 ^ 4 := by
    rw [Nat.shiftRight_eq_div_pow]
    exact Nat.and_pow_two_sub_one_eq_mod (v / 2 ^ 16) 4
  norm_num [e1, e2, e3, Nat.one_shiftLeft]

/-- C7 witness: the theorem applied to a device whose power-unit register holds
the value 42 (power exponent 10, energy exponent 0, time exponent 0). -/
theorem initializePlugin_decodes_unit_scales_witness :
    (42 : Nat) < 2 ^ 64
    ∧ initializePlugin RaplState.new
      { pathExists := true
        openError := none
        readError := none
        bytes := fun i => if i = 0 then (42 : Fin 256) else 0 }
      = Except.ok { RaplState.new with
          power_units := 1 / (2 : ℚ) ^ (42 % 2 ^ 4)
          energy_units := 1 / (2 : ℚ) ^ (42 / 2 ^ 8 % 2 ^ 5)
          time_units := 1 / (2 : ℚ) ^ (42 / 2 ^ 16 % 2 ^ 4) } :=
  ⟨by norm_num,
   initializePlugin_decodes_unit_scales RaplState.new
     { pathExists := true
       openError := none
       readError := none
       bytes := fun i => if i = 0 then (42 : Fin 256) else 0 }
     42 (by norm_num) rfl⟩

/-- The core EnergyMonitor start loop propagates the first failing plugin read
as an error, dropping the whole session. -/
lemma startLoop_propagates_error (ps₁ : List (String × Except HardwareError Measurement))
    (n : String) (e : HardwareError) (ps₂ : List (String × Except HardwareError Measurement)) :
    ∀ s : MeasurementSession, (∀ p ∈ ps₁, (p.2).isOk = true) →
      EnergyMonitor.startLoop s (ps₁ ++ (n, Except.error e) :: ps₂)
        = Except.error (EnergyError.HardwareError e) := by
  induction ps₁ with
  | nil => intro s _; rfl
  | cons p rest ih =>
    intro s hall
    obtain ⟨pn, pr⟩ := p
    have hp : (Except.isOk pr) = true := hall (pn, pr) (by simp)
    cases pr with
    | error e' => simp [Except.isOk, Except.toBool] at hp
    | ok m =>
      rw [List.cons_append]
      show EnergyMonitor.startLoop (s.add_start_measurement pn m) (rest ++ (n, Except.error e) :: ps₂) = _
      exact ih _ (fun q hq => hall q (List.mem_cons_of_mem _ hq))

/-- The core EnergyMonitor stop loop propagates the first failing plugin read
as an error, dropping the whole session. -/
lemma stop_measurement_propagates_error (ps₁ : List (String × Except HardwareError Measurement))
    (n : String) (e : HardwareError) (ps₂ : List (String × Except HardwareError Measurement)) :
    ∀ s : MeasurementSession, (∀ p ∈ ps₁, (p.2).isOk = true) →
      EnergyMonitor.stop_measurement s (ps₁ ++ (n, Except.error e) :: ps₂)
        = Except.error (EnergyError.HardwareError e) := by
  induction ps₁ with
  | nil => intro s _; rfl
  | cons p rest ih =>
    intro s hall
    obtain ⟨pn, pr⟩ := p
    have hp : (Except.isOk pr) = true := hall (pn, pr) (by simp)
    cases pr with
    | error e' => simp [Except.isOk, Except.toBool] at hp
    | ok m =>
      rw [List.cons_append]
      show EnergyMonitor.stop_measurement (s.add_end_measurement pn m) (rest ++ (n, Except.error e) :: ps₂) = _
      exact ih _ (fun q hq => hall q (List.mem_cons_of_mem _ hq))

/-- C4 counterexample: a registry with a single plugin whose read fails during
session start makes the core EnergyMonitor return the plugin's error, not a
session. -/
theorem core_monitor_fails_whole_session :
    EnergyMonitor.start_measurement 0 [("rapl", Except.error (HardwareError.SensorError ("boom")))]
      = Except.error (EnergyError.HardwareError (HardwareError.SensorError ("boom")))
    ∧ EnergyMonitor.stop_measurement (MeasurementSession.new 0)
      [("rapl", Except.error (HardwareError.SensorError ("boom")))]
      = Except.error (EnergyError.HardwareError (HardwareError.SensorError ("boom"))) :=
  ⟨rfl, rfl⟩

/-- C4 (amended): the two monitors disagree. In the core crate, a plugin read
failure during session start or session end aborts the operation and returns
the hardware error instead of a session — the claim holds only for the
instrumentation crate's EnergyMonitor, whose start loop returns Ok and simply
omits the failing source from the stored start measurements; no missing-source
report is produced by either. -/
theorem monitor_partial_failure_policies (now : ℚ) (s : MeasurementSession)
    (ps₁ ps₂ : List (String × Except HardwareError Measurement)) (n : String)
    (e : HardwareError) (im : InstrMonitor) (hok : ∀ p ∈ ps₁, (p.2).isOk = true) :
    EnergyMonitor.start_measurement now (ps₁ ++ (n, Except.error e) :: ps₂)
      = Except.error (EnergyError.HardwareError e)
    ∧ EnergyMonitor.stop_measurement s (ps₁ ++ (n, Except.error e) :: ps₂)
      = Except.error (EnergyError.HardwareError e)
    ∧ (instrStart im).2 = Except.ok ()
    ∧ (instrStart im).1.start_measurements = collectStarts im.plugins :=
  ⟨startLoop_propagates_error ps₁ n e ps₂ (MeasurementSession.new now) hok,
   stop_measurement_propagates_error ps₁ n e ps₂ s hok,
   rfl, rfl⟩

/-- C4 witness: the amended theorem applied to one succeeding and one failing
plugin. -/
theorem monitor_partial_failure_policies_witness :
    EnergyMonitor.start_measurement 3
      ([("a", Except.ok { timestamp := 3, joules := 1 })]
        ++ ("b", Except.error (HardwareError.SensorError ("x"))) :: [])
      = Except.error (EnergyError.HardwareError (HardwareError.SensorError ("x")))
    ∧ EnergyMonitor.stop_measurement (MeasurementSession.new 3)
      ([("a", Except.ok { timestamp := 3, joules := 1 })]
        ++ ("b", Except.error (HardwareError.SensorError ("x"))) :: [])
      = Except.error (EnergyError.HardwareError (HardwareError.SensorError ("x")))
    ∧ (instrStart { plugins := [], start_measurements := [] }).2 = Except.ok ()
    ∧ (instrStart { plugins := [], start_measurements := [] }).1.start_measurements
      = collectStarts ([] : List PluginBehavior) :=
  monitor_partial_failure_policies 3 (MeasurementSession.new 3)
    [("a", Except.ok { timestamp := 3, joules := 1 })] [] "b"
    (HardwareError.SensorError ("x")) { plugins := [], start_measurements := [] }
    (by intro p hp; simp at hp; rw [hp]; rfl)

lemma collectStarts_cons_ok {p : PluginBehavior} {m : Measurement}
    (hp : p.startResult = Except.ok m) (rest : List PluginBehavior) :
    collectStarts (p :: rest) = m :: collectStarts rest := by
  simp [collectStarts, hp]

lemma collectStarts_cons_error {p : PluginBehavior} {e : InstrumentationError}
    (hp : p.startResult = Except.error e) (rest : List PluginBehavior) :
    collectStarts (p :: rest) = collectStarts rest := by
  simp [collectStarts, hp]

lemma collectStarts_length_le : ∀ l : List PluginBehavior, (collectStarts l).length ≤ l.length := by
  intro l
  induction l with
  | nil => exact Nat.le_refl 0
  | cons p rest ih =>
    cases hp : p.startResult with
    | ok m =>
      rw [collectStarts_cons_ok hp, List.length_cons, List.length_cons]
      exact Nat.succ_le_succ ih
    | error e =>
      rw [collectStarts_cons_error hp, List.length_cons]
      exact Nat.le_succ_of_le ih

lemma collectStarts_all_ok : ∀ l : List PluginBehavior,
    (collectStarts l).length = l.length → ∀ p ∈ l, p.startResult.isOk = true := by
  intro l
  induction l with
  | nil => intro _ p hp; simp at hp
  | cons q rest ih =>
    intro hlen p hp
    cases hq : q.startResult with
    | error e =>
      have hle := collectStarts_length_le rest
      rw [collectStarts_cons_error hq, List.length_cons] at hlen
      omega
    | ok m =>
      rw [collectStarts_cons_ok hq, List.length_cons, List.length_cons] at hlen
      rcases List.mem_cons.mp hp with rfl | hmem
      · rw [hq]; rfl
      · exact ih (Nat.succ_injective hlen) p hmem

lemma mem_collectStarts_of_ok : ∀ (l : List PluginBehavior) (p : PluginBehavior) (m : Measurement),
    p ∈ l → p.startResult = Except.ok m → m ∈ collectStarts l := by
  intro l
  induction l with
  | nil => intro p m hp _; simp at hp
  | cons q rest ih =>
    intro p m hp hok
    rcases List.mem_cons.mp hp with rfl | hmem
    · rw [collectStarts_cons_ok hok]
      exact List.mem_cons_self _ _
    · cases hq : q.startResult with
      | ok m₀ =>
        rw [collectStarts_cons_ok hq]
        exact List.mem_cons_of_mem _ (ih p m hmem hok)
      | error e =>
        rw [collectStarts_cons_error hq]
        exact ih p m hmem hok

lemma collectStarts_getElem : ∀ (l : List PluginBehavior) (i : Nat) (m : Measurement),
    (collectStarts l)[i]? = some m →
    ∃ k pk, l[k]? = some pk ∧ pk.startResult = Except.ok m ∧ i ≤ k
      ∧ (collectStarts (l.take k)).length = i := by
  intro l
  induction l with
  | nil => intro i m hm; simp [collectStarts] at hm
  | cons q rest ih =>
    intro i m hm
    cases hq : q.startResult with
    | ok m₀ =>
      rw [collectStarts_cons_ok hq] at hm
      cases i with
      | zero =>
        have hmm : m₀ = m := by simpa using hm
        subst hmm
        exact ⟨0, q, by simp, hq, Nat.le_refl 0, by simp [collectStarts]⟩
      | succ i' =>
        rw [List.getElem?_cons_succ] at hm
        obtain ⟨k, pk, hk, hok, hik, hcnt⟩ := ih i' m hm
        refine ⟨k + 1, pk, ?_, hok, Nat.succ_le_succ hik, ?_⟩
        · rw [List.getElem?_cons_succ]; exact hk
        · rw [List.take_succ_cons, collectStarts_cons_ok hq, List.length_cons, hcnt]
    | error e =>
      rw [collectStarts_cons_error hq] at hm
      obtain ⟨k, pk, hk, hok, hik, hcnt⟩ := ih i m hm
      refine ⟨k + 1, pk, ?_, hok, Nat.le_succ_of_le hik, ?_⟩
      · rw [List.getElem?_cons_succ]; exact hk
      · rw [List.take_succ_cons, collectStarts_cons_error hq, hcnt]

lemma mem_drop_of_getElem {α : Type} : ∀ (l : List α) (n k : Nat) (a : α),
    n ≤ k → l[k]? = some a → a ∈ l.drop n := by
  intro l
  induction l with
  | nil => intro n k a _ h; simp at h
  | cons x t ih =>
    intro n k a hnk hk
    cases n with
    | zero => exact List.getElem?_mem hk
    | succ n' =>
      cases k with
      | zero => exact absurd hnk (Nat.not_succ_le_zero n')
      | succ k' =>
        rw [List.getElem?_cons_succ] at hk
        rw [List.drop_succ_cons]
        exact ih n' k' a (Nat.le_of_succ_le_succ hnk) hk

lemma lt_collectStarts_length : ∀ (l : List PluginBehavior) (i : Nat),
    (∀ k, k ≤ i → ∀ pk, l[k]? = some pk → pk.startResult.isOk = true) →
    i < l.length → i < (collectStarts l).length := by
  intro l
  induction l with
  | nil => intro i _ hi; simp at hi
  | cons q rest ih =>
    intro i hall hi
    have hq : q.startResult.isOk = true := hall 0 (Nat.zero_le i) q (by simp)
    cases hqr : q.startResult with
    | error e => rw [hqr] at hq; simp [Except.isOk, Except.toBool] at hq
    | ok m =>
      rw [collectStarts_cons_ok hqr, List.length_cons]
      cases i with
      | zero => exact Nat.succ_pos _
      | succ i' =>
        have hi' : i' < rest.length := by
          rw [List.length_cons] at hi
          omega
        have hall' : ∀ k, k ≤ i' → ∀ pk, rest[k]? = some pk → pk.startResult.isOk = true := by
          intro k hk pk hpk
          exact hall (k + 1) (Nat.succ_le_succ hk) pk
            (by rw [List.getElem?_cons_succ]; exact hpk)
        exact Nat.succ_lt_succ (ih i' hall' hi')

lemma collectStarts_shifted (l : List PluginBehavior) (i j : Nat) (pj : PluginBehavior)
    (m : Measurement) (hj : j ≤ i) (hpj : l[j]? = some pj)
    (hno : pj.startResult.isOk = false) (hm : (collectStarts l)[i]? = some m) :
    m ∈ collectStarts (l.drop (i + 1)) := by
  obtain ⟨k, pk, hk, hok, hik, hcnt⟩ := collectStarts_getElem l i m hm
  have hki : i + 1 ≤ k := by
    rcases Nat.lt_or_ge i k with hlt | hge
    · exact hlt
    · exfalso
      have hkeq : k = i := Nat.le_antisymm hge hik
      have hklen : k < l.length := by
        by_contra hbig
        push_neg at hbig
        rw [List.getElem?_eq_none hbig] at hk
        simp at hk
      have htake : (l.take k).length = k := by
        rw [List.length_take]
        omega
      have hallok := collectStarts_all_ok (l.take k) (by rw [hcnt, htake, hkeq])
      rcases Nat.lt_or_ge j k with hjk | hjk
      · have hmem : pj ∈ l.take k := by
          have hjt : (l.take k)[j]? = some pj := by
            rw [List.getElem?_take_of_lt hjk]
            exact hpj
          exact List.getElem?_mem hjt
        have hyes := hallok pj hmem
        rw [hyes] at hno
        exact Bool.noConfusion hno
      · have hjeq : j = k := by omega
        subst hjeq
        rw [hpj] at hk
        have hpjk : pj = pk := by
          injection hk
        rw [hpjk, hok] at hno
        simp [Except.isOk, Except.toBool] at hno
  exact mem_collectStarts_of_ok _ pk m (mem_drop_of_getElem l (i + 1) k pk hki hk) hok

/-- A failed read of an instrumentation plugin. -/
def errRead : InstrumentationError :=
  InstrumentationError.HardwareError (HardwareError.SensorError ("read failed"))

/-- A plugin whose start and stop reads both fail. -/
def pluginFailBoth : PluginBehavior :=
  { startResult := Except.error errRead, stopResult := Except.error errRead }

/-- A plugin whose start read yields 10 J at time 1 and whose stop read yields
100 J at time 5. -/
def pluginOkBoth : PluginBehavior :=
  { startResult := Except.ok { timestamp := 1, joules := 10 }
    stopResult := Except.ok { timestamp := 5, joules := 100 } }

/-- A plugin whose start read yields 20 J at time 2 and whose stop read fails. -/
def pluginOkStartOnly : PluginBehavior :=
  { startResult := Except.ok { timestamp := 2, joules := 20 }
    stopResult := Except.error errRead }

/-- The three-plugin configuration of the C10 example: the first plugin's start
read fails, the second succeeds at start and stop, the third succeeds at start
but fails at stop. -/
def pluginsShifted : List PluginBehavior :=
  [pluginFailBoth, pluginOkBoth, pluginOkStartOnly]

/-- A plugin whose start read fails but whose stop read succeeds: the
configuration under which the instrumentation stop loop indexes past the end
of the start-measurement vector. -/
def panicPlugin : PluginBehavior :=
  { startResult := Except.error
      (InstrumentationError.HardwareError (HardwareError.SensorError ("s")))
    stopResult := Except.ok { timestamp := 0, joules := 5 } }

/-- C10 counterexample: the indexing can be in bounds even though an earlier
plugin contributed no start measurement, contrary to the claim's "only under"
precondition and its "the index is out of bounds" consequence. With
`pluginsShifted`, plugin 0's start failed, yet `start_measurements[1]` is in
bounds — it holds plugin 2's start reading — and `stop_measurement` completes
without panic, pairing plugin 1's end (100 J) with plugin 2's start (20 J) for
a delta of 80 J where the correctly paired delta would be 100 − 10 = 90 J. -/
theorem instr_stop_in_bounds_despite_failed_start :
    (pluginsShifted[0]?.map (fun p => p.startResult.isOk)) = some false
    ∧ (collectStarts pluginsShifted)[1]? = some { timestamp := 2, joules := 20 }
    ∧ instrStop { plugins := pluginsShifted,
                  start_measurements := collectStarts pluginsShifted }
      = some [{ timestamp := 5, joules := 80 }]
    ∧ (100 : ℚ) - 10 = 90 := by
  refine ⟨rfl, rfl, ?_, by norm_num⟩
  simp +decide [instrStop, instrStopGo, collectStarts, pluginsShifted, pluginFailBoth,
    pluginOkBoth, pluginOkStartOnly, errRead]
  norm_num

/-- C10 (amended): in the instrumentation EnergyMonitor, `start_measurements[i]`
at stop time is in bounds whenever every plugin with index ≤ i contributed a
start measurement in the preceding `start_measurement()` call (sufficient, not
necessary); when some plugin with index j ≤ i contributed no start measurement
and the index is still in bounds, the entry read there is the start reading of
a strictly later plugin — the pairing is shifted to the wrong source; and the
out-of-bounds case panics, e.g. a single plugin whose start read failed but
whose stop read succeeds makes `stop_measurement` index an empty vector. -/
theorem instr_stop_indexing_and_pairing (plugins : List PluginBehavior) (i j : Nat)
    (pj : PluginBehavior) (m : Measurement) :
    ((∀ k, k ≤ i → ∀ pk, plugins[k]? = some pk → pk.startResult.isOk = true) →
      i < plugins.length →
      i < ((instrStart { plugins := plugins, start_measurements := [] }).1.start_measurements).length)
    ∧ (j ≤ i → plugins[j]? = some pj → pj.startResult.isOk = false →
      (collectStarts plugins)[i]? = some m → m ∈ collectStarts (plugins.drop (i + 1)))
    ∧ instrStop { plugins := [panicPlugin],
                  start_measurements := collectStarts [panicPlugin] } = none :=
  ⟨fun hall hi => lt_collectStarts_length plugins i hall hi,
   fun hj hpj hno hm => collectStarts_shifted plugins i j pj m hj hpj hno hm,
   rfl⟩

/-- C10 witness: the amended theorem applied to concrete plugin lists — the
in-bounds part on the two succeeding plugins, the shifted-pairing part on
`pluginsShifted` at index 1 with failing plugin 0, and the concrete panic. -/
theorem instr_stop_indexing_and_pairing_witness :
    (1 : Nat) < ((instrStart { plugins := pluginsShifted.drop 1,
                               start_measurements := [] }).1.start_measurements).length
    ∧ ({ timestamp := 2, joules := 20 } : Measurement)
        ∈ collectStarts (pluginsShifted.drop 2)
    ∧ instrStop { plugins := [panicPlugin],
                  start_measurements := collectStarts [panicPlugin] } = none :=
  ⟨(instr_stop_indexing_and_pairing (pluginsShifted.drop 1) 1 0 pluginFailBoth
      { timestamp := 0, joules := 0 }).1
    (by
      intro k hk pk hpk
      have hk01 : k = 0 ∨ k = 1 := by omega
      rcases hk01 with rfl | rfl
      · simp [pluginsShifted] at hpk
        subst hpk
        rfl
      · simp [pluginsShifted] at hpk
        subst hpk
        rfl)
    (by decide),
   (instr_stop_indexing_and_pairing pluginsShifted 1 0 pluginFailBoth
      { timestamp := 2, joules := 20 }).2.1
    (by decide) (by simp [pluginsShifted]) rfl (by simp [pluginsShifted, collectStarts,
      pluginFailBoth, pluginOkBoth, pluginOkStartOnly, errRead]),
   (instr_stop_indexing_and_pairing [] 0 0 pluginFailBoth
      { timestamp := 0, joules := 0 }).2.2⟩

end Codegreen
